import Mathlib

/-!
Shallow embedding of the wgpu-samples hello-triangle renderers.

Sources embedded:
- hello-triangle/main.rs       : event-loop redraw dispatch on the render result
- src/renderer.rs              : single-sample renderer (struct Renderer)
- hello-triangle-msaa/renderer.rs : 4-sample renderer resolving into the surface image

GPU objects are modelled as plain records carrying exactly the fields the
source sets; the per-frame work of the render functions is recorded as a
list of GpuOp events in source order. The acquisition of the next surface
image is an input to render, mirroring the fallible
surface.get_current_texture call. wgpu library functions that the source
calls but whose code is outside this repository (Surface::configure,
Surface::get_default_config, the single-sample nature of acquired surface
images) are modelled from the spec and marked as such.
-/

/-! ## wgpu data model -/

inductive TextureFormat
  | Bgra8UnormSrgb
  | Rgba8UnormSrgb
  | Other (n : Nat)
  deriving DecidableEq, Repr

structure SurfaceConfiguration where
  format : TextureFormat
  width : Nat
  height : Nat
  view_formats : List TextureFormat
  deriving DecidableEq, Repr

structure Extent3d where
  width : Nat
  height : Nat
  depth_or_array_layers : Nat
  deriving DecidableEq, Repr

inductive TextureDimension
  | D1
  | D2
  | D3
  deriving DecidableEq, Repr

def TextureUsages.RENDER_ATTACHMENT : Nat := 16

structure TextureDescriptor where
  size : Extent3d
  mip_level_count : Nat
  sample_count : Nat
  dimension : TextureDimension
  format : TextureFormat
  usage : Nat
  label : Option String
  view_formats : List TextureFormat
  deriving DecidableEq, Repr

structure TextureView where
  texture : TextureDescriptor
  deriving DecidableEq, Repr

def TextureDescriptor.create_view (t : TextureDescriptor) : TextureView :=
  TextureView.mk t

structure ShaderModule where
  path : String
  deriving DecidableEq, Repr

structure VertexBufferLayout where
  array_stride : Nat
  deriving DecidableEq, Repr

structure VertexState where
  module : ShaderModule
  entry_point : String
  buffers : List VertexBufferLayout
  deriving DecidableEq, Repr

inductive BlendFactor
  | Zero
  | One
  deriving DecidableEq, Repr

inductive BlendOperation
  | Add
  deriving DecidableEq, Repr

structure BlendComponent where
  src_factor : BlendFactor
  dst_factor : BlendFactor
  operation : BlendOperation
  deriving DecidableEq, Repr

def BlendComponent.REPLACE : BlendComponent :=
  BlendComponent.mk BlendFactor.One BlendFactor.Zero BlendOperation.Add

structure BlendState where
  color : BlendComponent
  alpha : BlendComponent
  deriving DecidableEq, Repr

def BlendState.REPLACE : BlendState :=
  BlendState.mk BlendComponent.REPLACE BlendComponent.REPLACE

structure ColorWrites where
  red : Bool
  green : Bool
  blue : Bool
  alpha : Bool
  deriving DecidableEq, Repr

def ColorWrites.ALL : ColorWrites :=
  ColorWrites.mk true true true true

structure ColorTargetState where
  format : TextureFormat
  blend : Option BlendState
  write_mask : ColorWrites
  deriving DecidableEq, Repr

structure FragmentState where
  module : ShaderModule
  entry_point : String
  targets : List (Option ColorTargetState)
  deriving DecidableEq, Repr

inductive PrimitiveTopology
  | PointList
  | LineList
  | TriangleList
  deriving DecidableEq, Repr

inductive FrontFace
  | Ccw
  | Cw
  deriving DecidableEq, Repr

inductive Face
  | Front
  | Back
  deriving DecidableEq, Repr

inductive PolygonMode
  | Fill
  | Line
  | Point
  deriving DecidableEq, Repr

inductive IndexFormat
  | Uint16
  | Uint32
  deriving DecidableEq, Repr

structure PrimitiveState where
  topology : PrimitiveTopology
  strip_index_format : Option IndexFormat
  front_face : FrontFace
  cull_mode : Option Face
  polygon_mode : PolygonMode
  unclipped_depth : Bool
  conservative : Bool
  deriving DecidableEq, Repr

structure DepthStencilState where
  placeholder : Unit
  deriving DecidableEq, Repr

structure MultisampleState where
  count : Nat
  mask : Nat
  alpha_to_coverage_enabled : Bool
  deriving DecidableEq, Repr

structure PipelineLayoutDescriptor where
  label : Option String
  bind_group_layouts : List Unit
  push_constant_ranges : List Unit
  deriving DecidableEq, Repr

structure RenderPipelineDescriptor where
  label : Option String
  layout : Option PipelineLayoutDescriptor
  vertex : VertexState
  fragment : Option FragmentState
  primitive : PrimitiveState
  depth_stencil : Option DepthStencilState
  multisample : MultisampleState
  multiview : Option Nat
  deriving DecidableEq, Repr

structure Color where
  r : Nat
  g : Nat
  b : Nat
  a : Nat
  deriving DecidableEq, Repr

def Color.BLACK : Color := Color.mk 0 0 0 1

inductive LoadOp
  | Clear (color : Color)
  | Load
  deriving DecidableEq, Repr

structure Operations where
  load : LoadOp
  store : Bool
  deriving DecidableEq, Repr

structure RenderPassColorAttachment where
  view : TextureView
  resolve_target : Option TextureView
  ops : Operations
  deriving DecidableEq, Repr

inductive SurfaceError
  | Timeout
  | Outdated
  | Lost
  | OutOfMemory
  deriving DecidableEq, Repr

structure Device where
  handle : Unit
  deriving DecidableEq, Repr

structure Queue where
  handle : Unit
  deriving DecidableEq, Repr

structure Surface where
  config : Option SurfaceConfiguration
  deriving DecidableEq, Repr

/-- Modelled from the spec: wgpu Surface::configure is outside this
repository; per the spec it applies the given configuration to the
surface, after which the surface is usable for rendering at that
configuration. -/
def Surface.configure (_s : Surface) (_device : Device) (c : SurfaceConfiguration) : Surface :=
  Surface.mk (some c)
  -- the previous configuration, if any, is fully replaced

/-- Modelled from the spec: wgpu Surface::get_default_config is outside
this repository; per the spec it selects the adapter's declared default
configuration for the surface at the given size, fixing the format every
later pipeline and attachment must agree with. The adapter's preferred
format is the adapter_format argument. -/
def Surface.get_default_config (_s : Surface) (adapter_format : TextureFormat)
    (width height : Nat) : SurfaceConfiguration :=
  SurfaceConfiguration.mk adapter_format width height []

/-- Modelled from the spec: the presentable image acquired from a surface
configured with c is single-sample, at the configuration's size and
format (the spec calls it the single-sample presentable image). -/
def surfaceImage (c : SurfaceConfiguration) : TextureDescriptor :=
  TextureDescriptor.mk (Extent3d.mk c.width c.height 1) 1 1 TextureDimension.D2
    c.format TextureUsages.RENDER_ATTACHMENT none c.view_formats

/-! ## Per-frame GPU work, recorded as events in source order -/

inductive GpuOp
  | create_command_encoder (label : Option String)
  | begin_render_pass (label : Option String)
      (color_attachments : List (Option RenderPassColorAttachment))
      (depth_stencil_attachment : Option Unit)
  | set_pipeline (pipeline : RenderPipelineDescriptor)
  | set_vertex_buffer (slot : Nat)
  | set_index_buffer (format : IndexFormat)
  | draw (vertex_start vertex_end instance_start instance_end : Nat)
  | draw_indexed (index_start index_end : Nat)
  | finish
  | submit (buffer_count : Nat)
  | present (texture : TextureDescriptor)
  deriving DecidableEq, Repr

/-! ## src/renderer.rs : the single-sample Renderer -/

structure Renderer where
  surface : Surface
  device : Device
  queue : Queue
  render_pipeline : RenderPipelineDescriptor
  deriving DecidableEq, Repr

/-- Renderer::new of src/renderer.rs. The adapter negotiation is external;
its outcome is the adapter_format argument, and the window's inner size is
the inner_width and inner_height arguments. Everything below mirrors the
source body in order. -/
def Renderer.new (adapter_format : TextureFormat) (inner_width inner_height : Nat) : Renderer :=
  let surface : Surface := Surface.mk none
  let device : Device := Device.mk ()
  let queue : Queue := Queue.mk ()
  let vertex_shader : ShaderModule := ShaderModule.mk "shaders/triangle.vert.wgsl"
  let fragment_shader : ShaderModule := ShaderModule.mk "shaders/red.frag.wgsl"
  let render_pipeline_layout : PipelineLayoutDescriptor :=
    { label := some "Render Pipeline Layout",
      bind_group_layouts := [],
      push_constant_ranges := [] }
  let surface_config := surface.get_default_config adapter_format inner_width inner_height
  let render_pipeline : RenderPipelineDescriptor :=
    { label := some "Render Pipeline",
      layout := some render_pipeline_layout,
      vertex := { module := vertex_shader, entry_point := "main", buffers := [] },
      fragment := some
        { module := fragment_shader,
          entry_point := "main",
          targets := [some
            { format := surface_config.format,
              blend := some BlendState.REPLACE,
              write_mask := ColorWrites.ALL }] },
      primitive :=
        { topology := PrimitiveTopology.TriangleList,
          strip_index_format := none,
          front_face := FrontFace.Ccw,
          cull_mode := some Face.Back,
          polygon_mode := PolygonMode.Fill,
          unclipped_depth := false,
          conservative := false },
      depth_stencil := none,
      multisample := { count := 1, mask := 2 ^ 64 - 1, alpha_to_coverage_enabled := false },
      multiview := none }
  let surface := surface.configure device surface_config
  { surface := surface, device := device, queue := queue, render_pipeline := render_pipeline }

/-- Renderer::render of src/renderer.rs. The acquired argument is the
outcome of surface.get_current_texture; on error the question-mark
operator returns it at once. The third component records every GPU
operation the body performs, in order. -/
def Renderer.render (self : Renderer) (acquired : Except SurfaceError TextureDescriptor) :
    Renderer × Except SurfaceError Unit × List GpuOp :=
  match acquired with
  | Except.error e => (self, Except.error e, [])
  | Except.ok output =>
    let view := output.create_view
    let ops : List GpuOp :=
      [GpuOp.create_command_encoder (some "Render Encoder"),
       GpuOp.begin_render_pass (some "Render Pass")
         [some
           { view := view,
             resolve_target := none,
             ops := { load := LoadOp.Clear Color.BLACK, store := true } }]
         none,
       GpuOp.set_pipeline self.render_pipeline,
       GpuOp.draw 0 3 0 1,
       GpuOp.finish,
       GpuOp.submit 1,
       GpuOp.present output]
    (self, Except.ok (), ops)

/-! ## hello-triangle-msaa/renderer.rs : the 4-sample Renderer -/

def SAMPLE_COUNT : Nat := 4

structure MsaaRenderer where
  surface : Surface
  device : Device
  queue : Queue
  render_pipeline : RenderPipelineDescriptor
  texture_view_for_multisampling : TextureView
  deriving DecidableEq, Repr

/-- Renderer::new of hello-triangle-msaa/renderer.rs, embedded under the
name MsaaRenderer to coexist with the single-sample variant. -/
def MsaaRenderer.new (adapter_format : TextureFormat) (inner_width inner_height : Nat) :
    MsaaRenderer :=
  let surface : Surface := Surface.mk none
  let device : Device := Device.mk ()
  let queue : Queue := Queue.mk ()
  let surface_config := surface.get_default_config adapter_format inner_width inner_height
  let texture_view_for_multisampling : TextureView :=
    TextureDescriptor.create_view
      { size := { width := inner_width, height := inner_height, depth_or_array_layers := 1 },
        mip_level_count := 1,
        sample_count := SAMPLE_COUNT,
        dimension := TextureDimension.D2,
        format := surface_config.format,
        usage := TextureUsages.RENDER_ATTACHMENT,
        label := none,
        view_formats := surface_config.view_formats }
  let vertex_shader : ShaderModule := ShaderModule.mk "shaders/triangle.vert.wgsl"
  let fragment_shader : ShaderModule := ShaderModule.mk "shaders/red.frag.wgsl"
  let render_pipeline_layout : PipelineLayoutDescriptor :=
    { label := some "Render Pipeline Layout",
      bind_group_layouts := [],
      push_constant_ranges := [] }
  let render_pipeline : RenderPipelineDescriptor :=
    { label := some "Render Pipeline",
      layout := some render_pipeline_layout,
      vertex := { module := vertex_shader, entry_point := "main", buffers := [] },
      fragment := some
        { module := fragment_shader,
          entry_point := "main",
          targets := [some
            { format := surface_config.format,
              blend := some BlendState.REPLACE,
              write_mask := ColorWrites.ALL }] },
      primitive :=
        { topology := PrimitiveTopology.TriangleList,
          strip_index_format := none,
          front_face := FrontFace.Ccw,
          cull_mode := some Face.Back,
          polygon_mode := PolygonMode.Fill,
          unclipped_depth := false,
          conservative := false },
      depth_stencil := none,
      multisample := { count := SAMPLE_COUNT, mask := 2 ^ 64 - 1, alpha_to_coverage_enabled := false },
      multiview := none }
  let surface := surface.configure device surface_config
  { surface := surface, device := device, queue := queue,
    render_pipeline := render_pipeline,
    texture_view_for_multisampling := texture_view_for_multisampling }

/-- Renderer::render of hello-triangle-msaa/renderer.rs: the pass's color
attachment is the stored multisample view, resolving into the acquired
image's view. -/
def MsaaRenderer.render (self : MsaaRenderer)
    (acquired : Except SurfaceError TextureDescriptor) :
    MsaaRenderer × Except SurfaceError Unit × List GpuOp :=
  match acquired with
  | Except.error e => (self, Except.error e, [])
  | Except.ok output =>
    let view := output.create_view
    let ops : List GpuOp :=
      [GpuOp.create_command_encoder (some "Render Encoder"),
       GpuOp.begin_render_pass (some "Render Pass")
         [some
           { view := self.texture_view_for_multisampling,
             resolve_target := some view,
             ops := { load := LoadOp.Clear Color.BLACK, store := true } }]
         none,
       GpuOp.set_pipeline self.render_pipeline,
       GpuOp.draw 0 3 0 1,
       GpuOp.finish,
       GpuOp.submit 1,
       GpuOp.present output]
    (self, Except.ok (), ops)

/-! ## hello-triangle/main.rs : the event-loop redraw dispatch -/

/-- The outcome of one RedrawRequested arm of the event-loop match in
main.rs: whether ControlFlow::Exit was set, whether the error was logged
via eprintln, and whether the surface was reconfigured. -/
structure RedrawDispatch where
  exit_requested : Bool
  logged : Bool
  reconfigured : Bool
  deriving DecidableEq, Repr

/-- The match on state.render() inside Event::RedrawRequested in main.rs,
arm for arm. The Lost arm's body is empty in the source (the
state.resize(state.size) call is commented out), so it neither logs nor
reconfigures. -/
def handle_redraw (render_result : Except SurfaceError Unit) : RedrawDispatch :=
  match render_result with
  | Except.ok _ => { exit_requested := false, logged := false, reconfigured := false }
  | Except.error SurfaceError.Lost =>
      { exit_requested := false, logged := false, reconfigured := false }
  | Except.error SurfaceError.OutOfMemory =>
      { exit_requested := true, logged := false, reconfigured := false }
  | Except.error _ =>
      { exit_requested := false, logged := true, reconfigured := false }

/-- One RedrawRequested event handled end to end: call state.render, then
dispatch on its result as main.rs does. -/
def redraw_step (state : Renderer) (acquired : Except SurfaceError TextureDescriptor) :
    Renderer × RedrawDispatch :=
  let result := state.render acquired
  (result.1, handle_redraw result.2.1)

/-! ## Trace observations -/

def is_begin_render_pass : GpuOp → Bool
  | GpuOp.begin_render_pass _ _ _ => true
  | _ => false

def is_draw : GpuOp → Bool
  | GpuOp.draw _ _ _ _ => true
  | _ => false

def is_draw_indexed : GpuOp → Bool
  | GpuOp.draw_indexed _ _ => true
  | _ => false

def is_set_vertex_buffer : GpuOp → Bool
  | GpuOp.set_vertex_buffer _ => true
  | _ => false

def is_set_index_buffer : GpuOp → Bool
  | GpuOp.set_index_buffer _ => true
  | _ => false

def is_submit : GpuOp → Bool
  | GpuOp.submit _ => true
  | _ => false

def is_present : GpuOp → Bool
  | GpuOp.present _ => true
  | _ => false

def count_ops (p : GpuOp → Bool) (tr : List GpuOp) : Nat :=
  (tr.filter p).length

/-- The argument quadruples of the non-indexed draw calls of a trace. -/
def draw_calls : List GpuOp → List (Nat × Nat × Nat × Nat)
  | [] => []
  | GpuOp.draw a b c d :: rest => (a, b, c, d) :: draw_calls rest
  | _ :: rest => draw_calls rest

/-- For each render pass of a trace, how many color attachments it declares. -/
def pass_attachment_counts : List GpuOp → List Nat
  | [] => []
  | GpuOp.begin_render_pass _ atts _ :: rest => atts.length :: pass_attachment_counts rest
  | _ :: rest => pass_attachment_counts rest

/-- The color-attachment lists of the render passes of a trace, in order. -/
def pass_color_attachments : List GpuOp → List (List (Option RenderPassColorAttachment))
  | [] => []
  | GpuOp.begin_render_pass _ atts _ :: rest => atts :: pass_color_attachments rest
  | _ :: rest => pass_color_attachments rest

/-- The sample counts of the textures viewed by the color attachments of
every render pass of a trace, in order. -/
def attachment_sample_counts : List GpuOp → List Nat
  | [] => []
  | GpuOp.begin_render_pass _ atts _ :: rest =>
      atts.filterMap (fun a => a.map fun att => att.view.texture.sample_count)
        ++ attachment_sample_counts rest
  | _ :: rest => attachment_sample_counts rest

/-- The buffer counts of the queue submissions of a trace, in order. -/
def submit_sizes : List GpuOp → List Nat
  | [] => []
  | GpuOp.submit n :: rest => n :: submit_sizes rest
  | _ :: rest => submit_sizes rest

/-- The format of the first color target of a pipeline's fragment state,
when present. -/
def first_target_format (p : RenderPipelineDescriptor) : Option TextureFormat :=
  match p.fragment with
  | some f =>
    match f.targets with
    | some ct :: _ => some ct.format
    | _ => none
  | none => none

def render_trace (r : Renderer) (t : TextureDescriptor) : List GpuOp :=
  (r.render (Except.ok t)).2.2

def msaa_render_trace (rm : MsaaRenderer) (t : TextureDescriptor) : List GpuOp :=
  (rm.render (Except.ok t)).2.2

/-- Running a sequence of frames: each entry is the acquisition outcome
offered to one render call; the renderer state is threaded through. -/
def run_frames (r : MsaaRenderer) : List (Except SurfaceError TextureDescriptor) → MsaaRenderer
  | [] => r
  | a :: rest => run_frames (r.render a).1 rest

/-! ## Helper lemmas -/

theorem renderer_render_fst (r : Renderer) (a : Except SurfaceError TextureDescriptor) :
    (r.render a).1 = r := by
  cases a <;> rfl

theorem msaa_renderer_render_fst (r : MsaaRenderer) (a : Except SurfaceError TextureDescriptor) :
    (r.render a).1 = r := by
  cases a <;> rfl

theorem run_frames_id (r : MsaaRenderer) (frames : List (Except SurfaceError TextureDescriptor)) :
    run_frames r frames = r := by
  induction frames generalizing r with
  | nil => rfl
  | cons a rest ih =>
    rw [run_frames, msaa_renderer_render_fst]
    exact ih r

/-- Modelled from the spec: the single surface-reconfiguration operation
taking (width, height); it configures the surface with the adapter's
default configuration at that size, exactly as the source's one configure
call does at startup. -/
def Surface.reconfigure (s : Surface) (device : Device) (adapter_format : TextureFormat)
    (width height : Nat) : Surface :=
  s.configure device (s.get_default_config adapter_format width height)

/-! ## Claim theorems -/

/-- C1: at a surface-lost acquisition failure the dispatch abandons the
frame and does not exit, but performs no reconfiguration: the Lost arm of
main.rs is empty — its reconfigure call is commented out — contradicting
both its own comment and the claim that the surface configuration is
reapplied before the next attempt. -/
theorem C1_lost_abandons_frame_without_reconfigure :
    redraw_step (Renderer.new TextureFormat.Bgra8UnormSrgb 800 600)
        (Except.error SurfaceError.Lost) =
      (Renderer.new TextureFormat.Bgra8UnormSrgb 800 600,
       { exit_requested := false, logged := false, reconfigured := false }) := rfl

/-- C2: the redraw dispatch distinguishes acquisition errors: out-of-memory
sets ControlFlow::Exit (the process terminates), while every acquisition
error other than Lost and OutOfMemory (that is, Timeout and Outdated) is
logged, does not exit, and leaves the renderer unchanged, so the next
redraw signal retries the whole cycle. The claim's device loss names the
separately handled SurfaceError::Lost case. -/
theorem C2_dispatch_distinguishes_errors (r : Renderer) (e : SurfaceError)
    (h1 : e ≠ SurfaceError.Lost) (h2 : e ≠ SurfaceError.OutOfMemory) :
    handle_redraw (Except.error SurfaceError.OutOfMemory) =
      { exit_requested := true, logged := false, reconfigured := false } ∧
    handle_redraw (Except.error e) =
      { exit_requested := false, logged := true, reconfigured := false } ∧
    (redraw_step r (Except.error e)).1 = r := by
  refine ⟨rfl, ?_, rfl⟩
  cases e
  · rfl
  · rfl
  · exact absurd rfl h1
  · exact absurd rfl h2

/-- Witness for C2 at the Timeout error and a concrete renderer. -/
theorem C2_dispatch_distinguishes_errors_witness :
    (SurfaceError.Timeout ≠ SurfaceError.Lost ∧
     SurfaceError.Timeout ≠ SurfaceError.OutOfMemory) ∧
    (handle_redraw (Except.error SurfaceError.OutOfMemory) =
       { exit_requested := true, logged := false, reconfigured := false } ∧
     handle_redraw (Except.error SurfaceError.Timeout) =
       { exit_requested := false, logged := true, reconfigured := false } ∧
     (redraw_step (Renderer.new TextureFormat.Bgra8UnormSrgb 800 600)
        (Except.error SurfaceError.Timeout)).1 =
       Renderer.new TextureFormat.Bgra8UnormSrgb 800 600) :=
  ⟨⟨by decide, by decide⟩,
   C2_dispatch_distinguishes_errors (Renderer.new TextureFormat.Bgra8UnormSrgb 800 600)
     SurfaceError.Timeout (by decide) (by decide)⟩

/-- C3: in every successful render cycle of either variant, exactly one
render pass with exactly one color attachment is recorded, exactly one
non-indexed draw covering vertices 0..3 and instances 0..1 is issued, no
vertex or index buffer is ever bound, and exactly one command buffer is
submitted to the queue before the image is presented. -/
theorem C3_one_pass_one_draw_one_submit (r : Renderer) (rm : MsaaRenderer)
    (t u : TextureDescriptor) :
    (count_ops is_begin_render_pass (render_trace r t) = 1 ∧
     pass_attachment_counts (render_trace r t) = [1] ∧
     draw_calls (render_trace r t) = [(0, 3, 0, 1)] ∧
     count_ops is_draw (render_trace r t) = 1 ∧
     count_ops is_draw_indexed (render_trace r t) = 0 ∧
     count_ops is_set_vertex_buffer (render_trace r t) = 0 ∧
     count_ops is_set_index_buffer (render_trace r t) = 0 ∧
     submit_sizes (render_trace r t) = [1] ∧
     count_ops is_present (render_trace r t) = 1 ∧
     List.findIdx is_submit (render_trace r t) <
       List.findIdx is_present (render_trace r t)) ∧
    (count_ops is_begin_render_pass (msaa_render_trace rm u) = 1 ∧
     pass_attachment_counts (msaa_render_trace rm u) = [1] ∧
     draw_calls (msaa_render_trace rm u) = [(0, 3, 0, 1)] ∧
     count_ops is_draw (msaa_render_trace rm u) = 1 ∧
     count_ops is_draw_indexed (msaa_render_trace rm u) = 0 ∧
     count_ops is_set_vertex_buffer (msaa_render_trace rm u) = 0 ∧
     count_ops is_set_index_buffer (msaa_render_trace rm u) = 0 ∧
     submit_sizes (msaa_render_trace rm u) = [1] ∧
     count_ops is_present (msaa_render_trace rm u) = 1 ∧
     List.findIdx is_submit (msaa_render_trace rm u) <
       List.findIdx is_present (msaa_render_trace rm u)) :=
  ⟨⟨rfl, rfl, rfl, rfl, rfl, rfl, rfl, rfl, rfl, Nat.le.refl⟩,
   ⟨rfl, rfl, rfl, rfl, rfl, rfl, rfl, rfl, rfl, Nat.le.refl⟩⟩

/-- C4: for both variants the pipeline's color-target format equals the
format of the surface configuration chosen at creation, and its
multisample count equals the sample count of the attachment its render
pass binds it to: 1 — the acquired single-sample surface image — in the
plain variant, and SAMPLE_COUNT = 4 — the offscreen multisample texture —
in the MSAA variant. -/
theorem C4_pipeline_format_and_sample_count (fmt : TextureFormat) (w h : Nat)
    (c : SurfaceConfiguration) :
    (Renderer.new fmt w h).surface.config.map SurfaceConfiguration.format = some fmt ∧
    first_target_format (Renderer.new fmt w h).render_pipeline = some fmt ∧
    (MsaaRenderer.new fmt w h).surface.config.map SurfaceConfiguration.format = some fmt ∧
    first_target_format (MsaaRenderer.new fmt w h).render_pipeline = some fmt ∧
    (Renderer.new fmt w h).render_pipeline.multisample.count = 1 ∧
    attachment_sample_counts (render_trace (Renderer.new fmt w h) (surfaceImage c)) = [1] ∧
    (MsaaRenderer.new fmt w h).render_pipeline.multisample.count = SAMPLE_COUNT ∧
    attachment_sample_counts
      (msaa_render_trace (MsaaRenderer.new fmt w h) (surfaceImage c)) = [SAMPLE_COUNT] ∧
    SAMPLE_COUNT = 4 :=
  ⟨rfl, rfl, rfl, rfl, rfl, rfl, rfl, rfl, rfl⟩

/-- C5: the one render pass's color attachment is wired per variant:
plain — the acquired image's view with no resolve target; MSAA — the
multisample view with the acquired image's view as resolve target; in
both, the load operation clears to opaque black (r = g = b = 0, a = 1)
and store is true. -/
theorem C5_attachment_wiring (r : Renderer) (rm : MsaaRenderer) (t u : TextureDescriptor) :
    pass_color_attachments (render_trace r t) =
      [[some
        { view := t.create_view,
          resolve_target := none,
          ops := { load := LoadOp.Clear Color.BLACK, store := true } }]] ∧
    pass_color_attachments (msaa_render_trace rm u) =
      [[some
        { view := rm.texture_view_for_multisampling,
          resolve_target := some u.create_view,
          ops := { load := LoadOp.Clear Color.BLACK, store := true } }]] ∧
    Color.BLACK = { r := 0, g := 0, b := 0, a := 1 } :=
  ⟨rfl, rfl, rfl⟩

/-- C6: the pipelines of both variants carry the fixed configuration —
triangle-list topology, counter-clockwise front face, back-face culling,
fill polygon mode, no depth or stencil state, one color target with
replace blending writing all channels, empty vertex-buffer list — and the
two descriptors differ in nothing but the multisample count, 1 versus
SAMPLE_COUNT. -/
theorem C6_pipeline_fixed_function (fmt : TextureFormat) (w h : Nat) :
    (Renderer.new fmt w h).render_pipeline.primitive =
      { topology := PrimitiveTopology.TriangleList,
        strip_index_format := none,
        front_face := FrontFace.Ccw,
        cull_mode := some Face.Back,
        polygon_mode := PolygonMode.Fill,
        unclipped_depth := false,
        conservative := false } ∧
    (Renderer.new fmt w h).render_pipeline.depth_stencil = none ∧
    (Renderer.new fmt w h).render_pipeline.fragment.map FragmentState.targets =
      some [some
        { format := fmt, blend := some BlendState.REPLACE, write_mask := ColorWrites.ALL }] ∧
    BlendState.REPLACE =
      { color := { src_factor := BlendFactor.One, dst_factor := BlendFactor.Zero,
                   operation := BlendOperation.Add },
        alpha := { src_factor := BlendFactor.One, dst_factor := BlendFactor.Zero,
                   operation := BlendOperation.Add } } ∧
    ColorWrites.ALL = { red := true, green := true, blue := true, alpha := true } ∧
    (Renderer.new fmt w h).render_pipeline.vertex.buffers = [] ∧
    (Renderer.new fmt w h).render_pipeline.multisample.count = 1 ∧
    (MsaaRenderer.new fmt w h).render_pipeline =
      { (Renderer.new fmt w h).render_pipeline with
        multisample :=
          { (Renderer.new fmt w h).render_pipeline.multisample with
            count := SAMPLE_COUNT } } :=
  ⟨rfl, rfl, rfl, rfl, rfl, rfl, rfl, rfl⟩

/-- C7: in every state reachable by any sequence of render calls from MSAA
startup, the multisample texture's sample count is greater than 1 and
equals the pipeline's multisample count, and its size equals the
configured surface size; no render call ever changes the state, so the
surface size never changes after startup and the recreate-on-resize
obligation never arises. -/
theorem C7_resolve_target_invariant (fmt : TextureFormat) (w h : Nat)
    (frames : List (Except SurfaceError TextureDescriptor)) :
    run_frames (MsaaRenderer.new fmt w h) frames = MsaaRenderer.new fmt w h ∧
    1 < (MsaaRenderer.new fmt w h).texture_view_for_multisampling.texture.sample_count ∧
    (MsaaRenderer.new fmt w h).texture_view_for_multisampling.texture.sample_count =
      (MsaaRenderer.new fmt w h).render_pipeline.multisample.count ∧
    (MsaaRenderer.new fmt w h).surface.config.map SurfaceConfiguration.width = some w ∧
    (MsaaRenderer.new fmt w h).surface.config.map SurfaceConfiguration.height = some h ∧
    (MsaaRenderer.new fmt w h).texture_view_for_multisampling.texture.size.width = w ∧
    (MsaaRenderer.new fmt w h).texture_view_for_multisampling.texture.size.height = h :=
  ⟨run_frames_id _ frames, Nat.le.step (Nat.le.step Nat.le.refl), rfl, rfl, rfl, rfl, rfl⟩

/-- C8: surface reconfiguration is one operation taking (width, height),
and it is idempotent: a second identical call leaves the surface in
exactly the state the first call produced, namely configured with the
adapter default configuration at that size and hence usable for rendering
unchanged. -/
theorem C8_reconfigure_idempotent (s : Surface) (d : Device) (fmt : TextureFormat)
    (w h : Nat) :
    (s.reconfigure d fmt w h).reconfigure d fmt w h = s.reconfigure d fmt w h ∧
    (s.reconfigure d fmt w h).config = some (s.get_default_config fmt w h) :=
  ⟨rfl, rfl⟩

/-- C9: render never mutates the shared resources: for either variant and
every acquisition outcome, the renderer after the call — surface, device,
queue, pipeline, and in the MSAA variant the multisample texture view —
equals the renderer before. -/
theorem C9_render_preserves_state (r : Renderer) (rm : MsaaRenderer)
    (a b : Except SurfaceError TextureDescriptor) :
    (r.render a).1 = r ∧ (rm.render b).1 = rm :=
  ⟨renderer_render_fst r a, msaa_renderer_render_fst rm b⟩

/-- C10: render returns an error exactly when acquisition fails, and then
it returns that same error with an empty operation trace — no encoder,
render pass, submission or presentation, the frame abandoned atomically —
while whenever acquisition succeeds it returns Ok, for both variants. -/
theorem C10_error_iff_acquisition_fails (r : Renderer) (rm : MsaaRenderer)
    (e : SurfaceError) (t u : TextureDescriptor) :
    r.render (Except.error e) = (r, Except.error e, []) ∧
    (r.render (Except.ok t)).2.1 = Except.ok () ∧
    rm.render (Except.error e) = (rm, Except.error e, []) ∧
    (rm.render (Except.ok u)).2.1 = Except.ok () :=
  ⟨rfl, rfl, rfl, rfl⟩
